import Mathlib

/-!
Shallow embedding of the Object Construction & Identity Subsystem of the
design-patterns repository: the Builder variants and the Director from
`src/creational/builder/index.ts`, and the Singleton variants and the keyed
registry from `src/creational/singleton/index.ts`.

JavaScript conventions are translated as follows: a TypeScript field of type
`string | undefined` becomes `Option String` (`none` = `undefined`); a field
of type `string` stays `String`; JavaScript truthiness of a string is
`¬ s.isEmpty`, and truthiness of `string | undefined` is `false` on `none`
and on `some ""`.  A `new` object allocation is modelled by drawing a fresh
identifier from an explicit `Nat` counter, so that reference equality of two
objects is equality of their identifiers.  A method that throws becomes a
function into `Except String _` carrying the thrown message; static mutable
state (the singleton slot, the registry map) is threaded explicitly.
-/

namespace Patterns

/-- Truthiness of a TypeScript `string | undefined` value: `undefined` and
the empty string are falsy, every other string is truthy. -/
def optTruthy : Option String → Bool
  | none => false
  | some s => !s.isEmpty

/-- The `Computer` product of `src/creational/builder/index.ts`. Its
constructor sets `name` to the literal `"Custom Computer"`, puts the three
required parts into `features` unconditionally, and appends each optional
part only when it is truthy (`if (gpu) this.features.push(gpu)`). -/
structure Computer where
  name : String
  features : List String
  cpu : String
  ram : String
  storage : String
  gpu : Option String
  powerSupply : Option String
  motherboard : Option String
  deriving DecidableEq, Repr

/-- The `Computer` constructor body (lines 27-40 of the source). -/
def Computer.make (cpu ram storage : String)
    (gpu powerSupply motherboard : Option String) : Computer :=
  { name := "Custom Computer"
    features :=
      [cpu, ram, storage]
        ++ (if optTruthy gpu then [gpu.getD ""] else [])
        ++ (if optTruthy powerSupply then [powerSupply.getD ""] else [])
        ++ (if optTruthy motherboard then [motherboard.getD ""] else [])
    cpu := cpu
    ram := ram
    storage := storage
    gpu := gpu
    powerSupply := powerSupply
    motherboard := motherboard }

/-- Mutable state of a `ConcreteComputerBuilder`: the required fields are
plain strings initialised to `''`, the optional fields are
`string | undefined` initialised to `undefined`. -/
structure BuilderState where
  cpu : String
  ram : String
  storage : String
  gpu : Option String
  powerSupply : Option String
  motherboard : Option String
  deriving DecidableEq, Repr

namespace ConcreteComputerBuilder

/-- Field initialisers of a freshly constructed `ConcreteComputerBuilder`
(lines 63-68: `cpu = ''`, `ram = ''`, `storage = ''`, optionals undefined). -/
def initial : BuilderState :=
  { cpu := "", ram := "", storage := "", gpu := none,
    powerSupply := none, motherboard := none }

/-- `setCPU(cpu)` stores the argument and returns `this`. -/
def setCPU (b : BuilderState) (v : String) : BuilderState := { b with cpu := v }

/-- `setRAM(ram)` stores the argument and returns `this`. -/
def setRAM (b : BuilderState) (v : String) : BuilderState := { b with ram := v }

/-- `setStorage(storage)` stores the argument and returns `this`. -/
def setStorage (b : BuilderState) (v : String) : BuilderState := { b with storage := v }

/-- `setGPU(gpu)` stores the argument and returns `this`. -/
def setGPU (b : BuilderState) (v : String) : BuilderState := { b with gpu := some v }

/-- `setPowerSupply(powerSupply)` stores the argument and returns `this`. -/
def setPowerSupply (b : BuilderState) (v : String) : BuilderState :=
  { b with powerSupply := some v }

/-- `setMotherboard(motherboard)` stores the argument and returns `this`. -/
def setMotherboard (b : BuilderState) (v : String) : BuilderState :=
  { b with motherboard := some v }

/-- `ConcreteComputerBuilder.build()` (lines 100-113): throws the fixed
message when `!this.cpu || !this.ram || !this.storage`, otherwise returns
`new Computer(cpu, ram, storage, gpu, powerSupply, motherboard)`. -/
def build (b : BuilderState) : Except String Computer :=
  if b.cpu.isEmpty || b.ram.isEmpty || b.storage.isEmpty then
    .error "CPU, RAM, and Storage are required"
  else
    .ok (Computer.make b.cpu b.ram b.storage b.gpu b.powerSupply b.motherboard)

/-- `build()` as a state-passing method: the source method contains no
assignment to `this`, so the post-state equals the pre-state. -/
def buildSt (b : BuilderState) : Except String Computer × BuilderState :=
  (build b, b)

/-- `ConcreteComputerBuilder.reset()` (lines 115-123): assigns the empty
string to every one of the six fields — including the three optional
`string | undefined` fields, which therefore become `''`, not `undefined` —
and returns `this`. -/
def reset (b : BuilderState) : BuilderState :=
  { b with cpu := "", ram := "", storage := "", gpu := some "",
           powerSupply := some "", motherboard := some "" }

end ConcreteComputerBuilder

/-- `new Computer(...)` inside a `build()` call, with object allocation made
explicit: the freshly built `Computer` is paired with a fresh object
identifier drawn from the allocation counter, so that two products built by
separate `build()` calls are distinct instances even when value-equal. -/
def ConcreteComputerBuilder.buildAlloc (b : BuilderState) (ctr : Nat) :
    Except String ((Nat × Computer) × Nat) :=
  match ConcreteComputerBuilder.build b with
  | .error e => .error e
  | .ok c => .ok ((ctr, c), ctr + 1)

namespace ComputerDirector

/-- `ComputerDirector.buildGamingComputer()` (lines 130-140): on its builder
it chains `reset()`, the six literal setter calls of the gaming recipe, and
`build()`.  The function returns the allocated product together with the
builder state left behind and the advanced allocation counter. -/
def buildGamingComputer (b : BuilderState) (ctr : Nat) :
    Except String ((Nat × Computer) × BuilderState × Nat) :=
  let b' :=
    ConcreteComputerBuilder.setMotherboard
      (ConcreteComputerBuilder.setPowerSupply
        (ConcreteComputerBuilder.setGPU
          (ConcreteComputerBuilder.setStorage
            (ConcreteComputerBuilder.setRAM
              (ConcreteComputerBuilder.setCPU
                (ConcreteComputerBuilder.reset b) "Intel i9-11900K")
              "32GB DDR4")
            "1TB NVMe SSD")
          "RTX 3080")
        "850W Gold")
      "ASUS ROG Strix Z590-E"
  match ConcreteComputerBuilder.buildAlloc b' ctr with
  | .error e => .error e
  | .ok (oc, ctr') => .ok (oc, b', ctr')

end ComputerDirector

/-- Mutable state of a `FluentComputerBuilder`: the single field
`computer: Partial<Computer>` starts as `{}`, so every product field is
optional (`undefined` until its fluent setter runs). -/
structure FluentState where
  cpu : Option String
  ram : Option String
  storage : Option String
  gpu : Option String
  powerSupply : Option String
  motherboard : Option String
  deriving DecidableEq, Repr

namespace FluentComputerBuilder

/-- The empty `Partial<Computer>` a fresh `FluentComputerBuilder` holds. -/
def initial : FluentState :=
  { cpu := none, ram := none, storage := none, gpu := none,
    powerSupply := none, motherboard := none }

/-- Fluent setter `cpu(cpu)`. -/
def cpu (p : FluentState) (v : String) : FluentState := { p with cpu := some v }

/-- Fluent setter `ram(ram)`. -/
def ram (p : FluentState) (v : String) : FluentState := { p with ram := some v }

/-- Fluent setter `storage(storage)`. -/
def storage (p : FluentState) (v : String) : FluentState := { p with storage := some v }

/-- Fluent setter `gpu(gpu)`. -/
def gpu (p : FluentState) (v : String) : FluentState := { p with gpu := some v }

/-- Fluent setter `powerSupply(powerSupply)`. -/
def powerSupply (p : FluentState) (v : String) : FluentState :=
  { p with powerSupply := some v }

/-- Fluent setter `motherboard(motherboard)`. -/
def motherboard (p : FluentState) (v : String) : FluentState :=
  { p with motherboard := some v }

/-- `FluentComputerBuilder.build()` (lines 198-206): destructures the
partial record and throws when `!cpu || !ram || !storage` — which is true
both when a required field is still `undefined` and when it was set to the
falsy empty string — otherwise constructs the `Computer`. -/
def build (p : FluentState) : Except String Computer :=
  if optTruthy p.cpu && optTruthy p.ram && optTruthy p.storage then
    .ok (Computer.make (p.cpu.getD "") (p.ram.getD "") (p.storage.getD "")
          p.gpu p.powerSupply p.motherboard)
  else
    .error "CPU, RAM, and Storage are required"

/-- `build()` as a state-passing method: the source method contains no
assignment to `this`, so the post-state equals the pre-state. -/
def buildSt (p : FluentState) : Except String Computer × FluentState :=
  (build p, p)

end FluentComputerBuilder

/-- Mutable state of a `StepComputerBuilder`: required `…Value` fields are
strings initialised to `''`, the optional ones `string | undefined`. -/
structure StepState where
  cpuValue : String
  ramValue : String
  storageValue : String
  gpuValue : Option String
  powerSupplyValue : Option String
  motherboardValue : Option String
  deriving DecidableEq, Repr

namespace StepComputerBuilder

/-- `StepComputerBuilder.create()` returns a fresh builder with the field
initialisers of lines 224-229. -/
def create : StepState :=
  { cpuValue := "", ramValue := "", storageValue := "", gpuValue := none,
    powerSupplyValue := none, motherboardValue := none }

/-- Step setter `cpu(cpu)`. -/
def cpu (s : StepState) (v : String) : StepState := { s with cpuValue := v }

/-- Step setter `ram(ram)`. -/
def ram (s : StepState) (v : String) : StepState := { s with ramValue := v }

/-- Step setter `storage(storage)`. -/
def storage (s : StepState) (v : String) : StepState := { s with storageValue := v }

/-- Step setter `gpu(gpu)`. -/
def gpu (s : StepState) (v : String) : StepState := { s with gpuValue := some v }

/-- Step setter `powerSupply(powerSupply)`. -/
def powerSupply (s : StepState) (v : String) : StepState :=
  { s with powerSupplyValue := some v }

/-- Step setter `motherboard(motherboard)`. -/
def motherboard (s : StepState) (v : String) : StepState :=
  { s with motherboardValue := some v }

/-- `StepComputerBuilder.build()` (lines 265-278): same required-field
truthiness check and `Computer` construction as the concrete builder. -/
def build (s : StepState) : Except String Computer :=
  if s.cpuValue.isEmpty || s.ramValue.isEmpty || s.storageValue.isEmpty then
    .error "CPU, RAM, and Storage are required"
  else
    .ok (Computer.make s.cpuValue s.ramValue s.storageValue
          s.gpuValue s.powerSupplyValue s.motherboardValue)

/-- `build()` as a state-passing method: the source method contains no
assignment to `this`, so the post-state equals the pre-state. -/
def buildSt (s : StepState) : Except String Computer × StepState :=
  (build s, s)

end StepComputerBuilder

/-- `GenericBuilder.build()` (lines 210-220): runs the subclass hook
`buildImplementation()`, then calls `this.reset()`, then returns the result.
The abstract hooks are passed in as state transformers. -/
def GenericBuilder.build {σ α : Type} (buildImplementation : σ → α × σ)
    (rst : σ → σ) (s : σ) : α × σ :=
  let r := buildImplementation s
  (r.1, rst r.2)

/-- Static state of the `Singleton` class of
`src/creational/singleton/index.ts`: the `instance` slot (`none` models the
initial `undefined` / the `null` written by `reset()`; a stored object is
its allocation identifier), the `isCreating` reentrancy flag, and the
allocation counter modelling `new`. -/
structure SingletonState where
  instanceRef : Option Nat
  isCreating : Bool
  nextId : Nat
  deriving DecidableEq, Repr

namespace Singleton

/-- The static field initialisers of the `Singleton` class:
no instance yet, `isCreating = false`; the allocation counter starts at 0. -/
def initialState : SingletonState :=
  { instanceRef := none, isCreating := false, nextId := 0 }

/-- The private `Singleton` constructor (lines 23-28): throws the fixed
message when `!Singleton.isCreating`, otherwise allocates the new object. -/
def construct (st : SingletonState) : Except String (Nat × SingletonState) :=
  if st.isCreating then
    .ok (st.nextId, { st with nextId := st.nextId + 1 })
  else
    .error "Cannot instantiate Singleton directly. Use getInstance() instead."

/-- `Singleton.getInstance()` (lines 34-41): when the slot is falsy (no
object stored), set `isCreating`, run the constructor, store the object and
clear `isCreating`; in every case return the stored object. -/
def getInstance (st : SingletonState) : Except String (Nat × SingletonState) :=
  match st.instanceRef with
  | some v => .ok (v, st)
  | none =>
    match construct { st with isCreating := true } with
    | .error e => .error e
    | .ok (obj, st') =>
      .ok (obj, { st' with instanceRef := some obj, isCreating := false })

/-- `Singleton.reset()` (lines 46-48): nulls the instance slot. -/
def reset (st : SingletonState) : SingletonState :=
  { st with instanceRef := none }

end Singleton

/-- Static state of `LazySingleton`: the `_instance` slot (an allocation
identifier, or `none` for `null`) and the allocation counter. -/
structure LazyState where
  instanceRef : Option Nat
  nextId : Nat
  deriving DecidableEq, Repr

namespace LazySingleton

/-- The static `instance` getter (lines 98-103): constructs and stores a new
object on first access, afterwards returns the stored one. The source name
is the accessor `instance`, which is not a legal Lean identifier. -/
def instanceGetter (st : LazyState) : Nat × LazyState :=
  match st.instanceRef with
  | some v => (v, st)
  | none => (st.nextId, { instanceRef := some st.nextId, nextId := st.nextId + 1 })

/-- `LazySingleton.reset()` (lines 109-111): nulls the slot. -/
def reset (st : LazyState) : LazyState := { st with instanceRef := none }

end LazySingleton

/-- The `Map<string, any>` backing `SingletonRegistry`, as an association
list with unique keys (entries are only ever inserted for absent keys). -/
def RegMap (α : Type) : Type := List (String × α)

/-- `Map.get(key)`: the stored value, or `none` for JavaScript `undefined`. -/
def mapGet {α : Type} : RegMap α → String → Option α
  | [], _ => none
  | (k, v) :: rest, key => if k = key then some v else mapGet rest key

/-- `Map.set(key, value)`: overwrite the entry for `key` or append one. -/
def mapSet {α : Type} : RegMap α → String → α → RegMap α
  | [], key, v => [(key, v)]
  | (k, w) :: rest, key, v =>
    if k = key then (key, v) :: rest else (k, w) :: mapSet rest key v

/-- `Map.delete(key)`: drop the entry for `key` when present. -/
def mapDelete {α : Type} : RegMap α → String → RegMap α
  | [], _ => []
  | (k, w) :: rest, key => if k = key then rest else (k, w) :: mapDelete rest key

namespace SingletonRegistry

/-- `SingletonRegistry.hasInstance(key)` (lines 82-84): `instances.has(key)`. -/
def hasInstance {α : Type} (m : RegMap α) (key : String) : Bool :=
  (mapGet m key).isSome

/-- `SingletonRegistry.getInstance(key, factory)` (lines 64-72): when
`!instances.has(key)`, call `factory()` and `set` its result under `key`
(a throw inside `factory` escapes before the `set`); finally return
`instances.get(key)`.  The caller's factory is a transformer of an
arbitrary side-state `σ` (its one invocation applies that effect once), and
the registry map and side-state survive a throw unchanged. -/
def getInstance {α σ ε : Type} (key : String) (factory : σ → Except ε (α × σ))
    (m : RegMap α) (s : σ) : Except ε (Option α) × RegMap α × σ :=
  if hasInstance m key then
    (.ok (mapGet m key), m, s)
  else
    match factory s with
    | .error e => (.error e, m, s)
    | .ok (v, s') =>
      let m' := mapSet m key v
      (.ok (mapGet m' key), m', s')

/-- `SingletonRegistry.reset(key)` (lines 74-76): `instances.delete(key)`. -/
def reset {α : Type} (m : RegMap α) (key : String) : RegMap α := mapDelete m key

/-- `SingletonRegistry.resetAll()` (lines 78-80): `instances.clear()`. -/
def resetAll {α : Type} (_ : RegMap α) : RegMap α := []

end SingletonRegistry

/-- Looking a key up right after `set`ting it yields the stored value. -/
theorem mapGet_mapSet_self {α : Type} (m : RegMap α) (k : String) (v : α) :
    mapGet (mapSet m k v) k = some v := by
  induction m with
  | nil => simp [mapSet, mapGet]
  | cons hd tl ih =>
    obtain ⟨k', w⟩ := hd
    by_cases h : k' = k <;> simp [mapSet, mapGet, h, ih]

/-- C1: the first `SingletonRegistry.getInstance(key, f)` call with `key`
absent applies `f` exactly once (the side-state receives the effect of one
invocation), stores its result under `key` and returns it; and any later
call `getInstance(key, g)` made while `key` still maps to that stored value
returns exactly the stored value and leaves both the registry and the second
factory's side-state untouched — `g` is never invoked, and the returned
value is the stored one itself, not an equal-but-distinct rebuild. -/
theorem registry_getInstance_caches_first_result {α σ ε : Type} (key : String)
    (f g : σ → Except ε (α × σ)) (m : RegMap α) (s s' : σ) (v : α)
    (habs : SingletonRegistry.hasInstance m key = false)
    (hf : f s = .ok (v, s')) :
    SingletonRegistry.getInstance key f m s = (.ok (some v), mapSet m key v, s') ∧
    ∀ (m' : RegMap α) (t : σ), mapGet m' key = some v →
      SingletonRegistry.getInstance key g m' t = (.ok (some v), m', t) := by
  constructor
  · simp [SingletonRegistry.getInstance, habs, hf, mapGet_mapSet_self]
  · intro m' t hm'
    simp [SingletonRegistry.getInstance, SingletonRegistry.hasInstance, hm']

/-- Concrete run of C1: with allocation-counter factories over `Nat`
identities, the first call on an empty registry allocates identity 0 and
bumps the counter once; a later call with a different factory returns the
stored identity 0 and leaves registry and counter alone. -/
theorem registry_getInstance_caches_first_result_witness :
    SingletonRegistry.getInstance "A"
        (fun n : Nat => (Except.ok (n, n + 1) : Except String (Nat × Nat))) [] 0
      = (.ok (some 0), [("A", 0)], 1) ∧
    SingletonRegistry.getInstance "A"
        (fun n : Nat => (Except.ok (n + 100, n + 1) : Except String (Nat × Nat))) [("A", 0)] 5
      = (.ok (some 0), [("A", 0)], 5) := by
  have h := registry_getInstance_caches_first_result "A"
      (fun n : Nat => (Except.ok (n, n + 1) : Except String (Nat × Nat)))
      (fun n : Nat => (Except.ok (n + 100, n + 1) : Except String (Nat × Nat)))
      [] 0 1 0 rfl rfl
  exact ⟨h.1, h.2 [("A", 0)] 5 rfl⟩

/-- C6: when the factory passed for an absent key throws, the error comes
back to the caller unchanged, the registry map is exactly what it was before
the call, the factory side-state is untouched, and `hasInstance(key)` on the
resulting map is still `false` — no partial entry is created. -/
theorem registry_factory_throw_leaves_no_entry {α σ ε : Type} (key : String)
    (factory : σ → Except ε (α × σ)) (m : RegMap α) (s : σ) (e : ε)
    (habs : SingletonRegistry.hasInstance m key = false)
    (hf : factory s = .error e) :
    SingletonRegistry.getInstance key factory m s = (.error e, m, s) ∧
    SingletonRegistry.hasInstance
      (SingletonRegistry.getInstance key factory m s).2.1 key = false := by
  have hmain : SingletonRegistry.getInstance key factory m s = (.error e, m, s) := by
    simp [SingletonRegistry.getInstance, habs, hf]
  exact ⟨hmain, by rw [hmain]; exact habs⟩

/-- Concrete run of C6: a throwing factory on an empty registry propagates
its error and leaves the registry empty. -/
theorem registry_factory_throw_leaves_no_entry_witness :
    SingletonRegistry.getInstance "A"
        (fun _ : Nat => (Except.error "boom" : Except String (Nat × Nat))) [] 0
      = (.error "boom", [], 0) ∧
    SingletonRegistry.hasInstance
      (SingletonRegistry.getInstance "A"
        (fun _ : Nat => (Except.error "boom" : Except String (Nat × Nat))) [] 0).2.1 "A"
      = false :=
  registry_factory_throw_leaves_no_entry "A"
    (fun _ : Nat => (Except.error "boom" : Except String (Nat × Nat))) [] 0 "boom" rfl rfl

/-- C3: whenever the `isCreating` reentrancy flag is clear — which is the
case everywhere outside the synchronous extent of `getInstance()`, since
`getInstance()` raises it only around its internal `new Singleton()` and
lowers it again — the private constructor throws the `ConstructionForbidden`
message; and construction initiated by `getInstance()` itself succeeds: on
an empty slot `getInstance()` returns the freshly allocated instance with
the flag back to `false` afterwards. -/
theorem singleton_constructor_guard :
    (∀ st : SingletonState, st.isCreating = false →
        Singleton.construct st =
          .error "Cannot instantiate Singleton directly. Use getInstance() instead.") ∧
    (∀ st : SingletonState, st.instanceRef = none →
        Singleton.getInstance st =
          .ok (st.nextId,
            { instanceRef := some st.nextId, isCreating := false,
              nextId := st.nextId + 1 })) := by
  constructor
  · intro st h
    simp [Singleton.construct, h]
  · intro st h
    simp [Singleton.getInstance, Singleton.construct, h]

/-- Concrete run of C3: from the initial static state a direct `new`
throws, while `getInstance()` succeeds and allocates instance 0. -/
theorem singleton_constructor_guard_witness :
    Singleton.construct Singleton.initialState =
      .error "Cannot instantiate Singleton directly. Use getInstance() instead." ∧
    Singleton.getInstance Singleton.initialState =
      .ok (0, { instanceRef := some 0, isCreating := false, nextId := 1 }) :=
  ⟨singleton_constructor_guard.1 Singleton.initialState rfl,
   singleton_constructor_guard.2 Singleton.initialState rfl⟩

/-- C9: for both `Singleton.getInstance()` and the `LazySingleton.instance`
accessor, a second call made on the state produced by a first call returns
the identical instance and leaves the state exactly as it was — the second
call performs no reconstruction and the occupied slot is never overwritten. -/
theorem singleton_access_idempotent :
    (∀ (st st' : SingletonState) (v : Nat),
        Singleton.getInstance st = .ok (v, st') →
        Singleton.getInstance st' = .ok (v, st')) ∧
    (∀ (st st' : LazyState) (v : Nat),
        LazySingleton.instanceGetter st = (v, st') →
        LazySingleton.instanceGetter st' = (v, st')) := by
  constructor
  · intro st st' v h
    cases href : st.instanceRef with
    | some w =>
      simp [Singleton.getInstance, href] at h
      obtain ⟨hv, hst⟩ := h
      subst hv; subst hst
      simp [Singleton.getInstance, href]
    | none =>
      simp [Singleton.getInstance, Singleton.construct, href] at h
      obtain ⟨hv, hst⟩ := h
      subst hv
      rw [← hst]
      simp [Singleton.getInstance]
  · intro st st' v h
    cases href : st.instanceRef with
    | some w =>
      simp [LazySingleton.instanceGetter, href] at h
      obtain ⟨hv, hst⟩ := h
      subst hv; subst hst
      simp [LazySingleton.instanceGetter, href]
    | none =>
      simp [LazySingleton.instanceGetter, href] at h
      obtain ⟨hv, hst⟩ := h
      subst hv
      rw [← hst]
      simp [LazySingleton.instanceGetter]

/-- Concrete run of C9: after a first access from the initial states, a
second access returns the same instance 0 with the state unchanged. -/
theorem singleton_access_idempotent_witness :
    Singleton.getInstance
        { instanceRef := some 0, isCreating := false, nextId := 1 } =
      .ok (0, { instanceRef := some 0, isCreating := false, nextId := 1 }) ∧
    LazySingleton.instanceGetter { instanceRef := some 0, nextId := 1 } =
      (0, { instanceRef := some 0, nextId := 1 }) :=
  ⟨singleton_access_idempotent.1 Singleton.initialState
      { instanceRef := some 0, isCreating := false, nextId := 1 } 0 rfl,
   singleton_access_idempotent.2 { instanceRef := none, nextId := 0 }
      { instanceRef := some 0, nextId := 1 } 0 rfl⟩

/-- C4: on any builder state whose three required fields are set (non-empty,
the state a successful setter call leaves behind), `build()` succeeds and
returns a `Computer` whose `cpu`, `ram`, `storage`, `gpu`, `powerSupply` and
`motherboard` fields are exactly the builder's current field values — the
values last passed to the corresponding setters, with `none` (absent) for an
optional field whose setter never ran. -/
theorem builder_build_snapshot (b : BuilderState)
    (hc : b.cpu ≠ "") (hr : b.ram ≠ "") (hs : b.storage ≠ "") :
    ConcreteComputerBuilder.build b =
      .ok (Computer.make b.cpu b.ram b.storage b.gpu b.powerSupply b.motherboard) ∧
    (Computer.make b.cpu b.ram b.storage b.gpu b.powerSupply b.motherboard).cpu = b.cpu ∧
    (Computer.make b.cpu b.ram b.storage b.gpu b.powerSupply b.motherboard).ram = b.ram ∧
    (Computer.make b.cpu b.ram b.storage b.gpu b.powerSupply b.motherboard).storage = b.storage ∧
    (Computer.make b.cpu b.ram b.storage b.gpu b.powerSupply b.motherboard).gpu = b.gpu ∧
    (Computer.make b.cpu b.ram b.storage b.gpu b.powerSupply b.motherboard).powerSupply = b.powerSupply ∧
    (Computer.make b.cpu b.ram b.storage b.gpu b.powerSupply b.motherboard).motherboard = b.motherboard := by
  refine ⟨?_, rfl, rfl, rfl, rfl, rfl, rfl⟩
  simp [ConcreteComputerBuilder.build, String.isEmpty_iff, hc, hr, hs]

/-- Concrete run of C4: required fields set, `gpu` set, the two other
optional setters never called — the product holds exactly those values and
`none` for the untouched optionals. -/
theorem builder_build_snapshot_witness :
    ConcreteComputerBuilder.build
        (ConcreteComputerBuilder.setGPU
          (ConcreteComputerBuilder.setStorage
            (ConcreteComputerBuilder.setRAM
              (ConcreteComputerBuilder.setCPU ConcreteComputerBuilder.initial "Intel i7")
              "16GB") "512GB") "GTX 1660") =
      .ok (Computer.make "Intel i7" "16GB" "512GB" (some "GTX 1660") none none) ∧
    (Computer.make "Intel i7" "16GB" "512GB" (some "GTX 1660") none none).cpu = "Intel i7" ∧
    (Computer.make "Intel i7" "16GB" "512GB" (some "GTX 1660") none none).ram = "16GB" ∧
    (Computer.make "Intel i7" "16GB" "512GB" (some "GTX 1660") none none).storage = "512GB" ∧
    (Computer.make "Intel i7" "16GB" "512GB" (some "GTX 1660") none none).gpu = some "GTX 1660" ∧
    (Computer.make "Intel i7" "16GB" "512GB" (some "GTX 1660") none none).powerSupply = none ∧
    (Computer.make "Intel i7" "16GB" "512GB" (some "GTX 1660") none none).motherboard = none :=
  builder_build_snapshot
    (ConcreteComputerBuilder.setGPU
      (ConcreteComputerBuilder.setStorage
        (ConcreteComputerBuilder.setRAM
          (ConcreteComputerBuilder.setCPU ConcreteComputerBuilder.initial "Intel i7")
          "16GB") "512GB") "GTX 1660")
    (by decide) (by decide) (by decide)

/-- C2 fails on the code: `build()` throws the one fixed message
`'CPU, RAM, and Storage are required'` no matter which required field is the
missing one, so the error reports the set of required fields and cannot
identify the specific missing field: here a state whose only missing field
is `cpu` and a state whose only missing field is `ram` produce identical
errors. -/
theorem builder_error_not_field_specific :
    ConcreteComputerBuilder.build
        { cpu := "", ram := "16GB", storage := "512GB", gpu := none,
          powerSupply := none, motherboard := none } =
      .error "CPU, RAM, and Storage are required" ∧
    ConcreteComputerBuilder.build
        { cpu := "Intel i5", ram := "", storage := "512GB", gpu := none,
          powerSupply := none, motherboard := none } =
      .error "CPU, RAM, and Storage are required" ∧
    ConcreteComputerBuilder.build
        { cpu := "", ram := "16GB", storage := "512GB", gpu := none,
          powerSupply := none, motherboard := none } =
      ConcreteComputerBuilder.build
        { cpu := "Intel i5", ram := "", storage := "512GB", gpu := none,
          powerSupply := none, motherboard := none } :=
  ⟨rfl, rfl, rfl⟩

/-- C2 amended: whenever any required field (`cpu`, `ram` or `storage`) is
unset, `build()` fails — but always with the single fixed error whose
message names the set of required fields, `'CPU, RAM, and Storage are
required'`, independent of which field is missing. -/
theorem builder_missing_required_fixed_error (b : BuilderState)
    (h : b.cpu = "" ∨ b.ram = "" ∨ b.storage = "") :
    ConcreteComputerBuilder.build b = .error "CPU, RAM, and Storage are required" := by
  rcases h with h | h | h <;> simp [ConcreteComputerBuilder.build, h, String.isEmpty_iff]

/-- Concrete run of amended C2: `cpu` unset while the other required fields
are set still produces the fixed error. -/
theorem builder_missing_required_fixed_error_witness :
    ConcreteComputerBuilder.build
        { cpu := "", ram := "32GB", storage := "1TB", gpu := none,
          powerSupply := none, motherboard := none } =
      .error "CPU, RAM, and Storage are required" :=
  builder_missing_required_fixed_error
    { cpu := "", ram := "32GB", storage := "1TB", gpu := none,
      powerSupply := none, motherboard := none } (Or.inl rfl)

/-- C5: two consecutive `buildGamingComputer()` runs on the same builder
(the second starting from the builder state and allocation counter the first
left behind) both succeed, produce value-equal `Computer`s with the fixed
recipe values, and the two products carry different allocation identities —
they are distinct instances. -/
theorem director_gaming_deterministic_distinct (b : BuilderState) (n : Nat) :
    ∃ (i₁ i₂ : Nat) (c₁ c₂ : Computer) (b₁ b₂ : BuilderState) (n₁ n₂ : Nat),
      ComputerDirector.buildGamingComputer b n = .ok ((i₁, c₁), b₁, n₁) ∧
      ComputerDirector.buildGamingComputer b₁ n₁ = .ok ((i₂, c₂), b₂, n₂) ∧
      c₁ = c₂ ∧ i₁ ≠ i₂ ∧
      c₁.cpu = "Intel i9-11900K" ∧ c₁.ram = "32GB DDR4" ∧
      c₁.storage = "1TB NVMe SSD" ∧ c₁.gpu = some "RTX 3080" := by
  refine ⟨n, n + 1, _, _, _, _, n + 1, n + 2, rfl, rfl, rfl, by omega, rfl, rfl, rfl, rfl⟩

/-- C7 fails on the code: `reset()` assigns `''` to the optional fields
while a fresh builder holds `undefined` there, so a builder after `reset()`
is distinguishable from a freshly constructed one, and an optional field not
re-set after `reset()` appears in the next product as the placeholder `''`
(present, though filtered out of `features` by truthiness) instead of being
absent as it is on the fresh-builder path. -/
theorem builder_reset_not_fresh :
    ConcreteComputerBuilder.reset ConcreteComputerBuilder.initial ≠
      ConcreteComputerBuilder.initial ∧
    (ConcreteComputerBuilder.build
        (ConcreteComputerBuilder.setStorage
          (ConcreteComputerBuilder.setRAM
            (ConcreteComputerBuilder.setCPU
              (ConcreteComputerBuilder.reset ConcreteComputerBuilder.initial) "i7")
            "16GB") "1TB")).map Computer.gpu = .ok (some "") ∧
    (ConcreteComputerBuilder.build
        (ConcreteComputerBuilder.setStorage
          (ConcreteComputerBuilder.setRAM
            (ConcreteComputerBuilder.setCPU ConcreteComputerBuilder.initial "i7")
            "16GB") "1TB")).map Computer.gpu = .ok none :=
  ⟨by decide, rfl, rfl⟩

/-- C7 amended: `reset()` returns the builder with every field assigned the
empty string — required fields become unset, so a `build()` without
re-setting them fails with the required-field error; the optional fields,
however, now hold `''` rather than `undefined`, so the builder is not
field-identical to a fresh one and optional fields not re-set surface in the
next product as `''` (excluded from `features` by truthiness) rather than
absent. -/
theorem builder_reset_clears_to_empty_strings (b : BuilderState) :
    ConcreteComputerBuilder.reset b =
      { cpu := "", ram := "", storage := "", gpu := some "",
        powerSupply := some "", motherboard := some "" } ∧
    ConcreteComputerBuilder.build (ConcreteComputerBuilder.reset b) =
      .error "CPU, RAM, and Storage are required" :=
  ⟨rfl, rfl⟩

/-- C8 fails on the code for the cited `GenericBuilder`: its `build()` runs
`buildImplementation()` and then calls `this.reset()`, so the post-build
state is the reset state, not the pre-call state — here instantiated with
the computer builder semantics, a state with `gpu` unset is changed by
`build()`. -/
theorem generic_build_changes_state :
    (GenericBuilder.build
        (fun b : BuilderState => (ConcreteComputerBuilder.build b, b))
        ConcreteComputerBuilder.reset
        { cpu := "i9", ram := "32GB", storage := "1TB", gpu := none,
          powerSupply := none, motherboard := none }).2 ≠
      { cpu := "i9", ram := "32GB", storage := "1TB", gpu := none,
        powerSupply := none, motherboard := none } := by
  decide

/-- C8 amended: `build()` on `ConcreteComputerBuilder`, on
`FluentComputerBuilder` and on `StepComputerBuilder` leaves every field of
the builder state exactly as it was — whether it returns a product or
throws — so reuse requires an explicit `reset()`; `GenericBuilder.build()`,
by contrast, invokes `reset()` after `buildImplementation()`, leaving the
reset state behind. -/
theorem builder_build_frame :
    (∀ b : BuilderState, (ConcreteComputerBuilder.buildSt b).2 = b) ∧
    (∀ p : FluentState, (FluentComputerBuilder.buildSt p).2 = p) ∧
    (∀ s : StepState, (StepComputerBuilder.buildSt s).2 = s) ∧
    (∀ (σ α : Type) (impl : σ → α × σ) (rst : σ → σ) (s : σ),
      (GenericBuilder.build impl rst s).2 = rst (impl s).2) :=
  ⟨fun _ => rfl, fun _ => rfl, fun _ => rfl, fun _ _ _ _ _ => rfl⟩

/-- C10: in all three builder variants, calling a required-field setter with
the empty string and then `build()` throws the required-field error even
though the setter was invoked — validation tests the field's truthiness, and
`''` is falsy, so an empty-string required field counts as unset. -/
theorem empty_required_field_fails_build :
    (∀ b : BuilderState,
      ConcreteComputerBuilder.build (ConcreteComputerBuilder.setCPU b "") =
        .error "CPU, RAM, and Storage are required" ∧
      ConcreteComputerBuilder.build (ConcreteComputerBuilder.setRAM b "") =
        .error "CPU, RAM, and Storage are required" ∧
      ConcreteComputerBuilder.build (ConcreteComputerBuilder.setStorage b "") =
        .error "CPU, RAM, and Storage are required") ∧
    (∀ p : FluentState,
      FluentComputerBuilder.build (FluentComputerBuilder.cpu p "") =
        .error "CPU, RAM, and Storage are required" ∧
      FluentComputerBuilder.build (FluentComputerBuilder.ram p "") =
        .error "CPU, RAM, and Storage are required" ∧
      FluentComputerBuilder.build (FluentComputerBuilder.storage p "") =
        .error "CPU, RAM, and Storage are required") ∧
    (∀ s : StepState,
      StepComputerBuilder.build (StepComputerBuilder.cpu s "") =
        .error "CPU, RAM, and Storage are required" ∧
      StepComputerBuilder.build (StepComputerBuilder.ram s "") =
        .error "CPU, RAM, and Storage are required" ∧
      StepComputerBuilder.build (StepComputerBuilder.storage s "") =
        .error "CPU, RAM, and Storage are required") := by
  have hemp : ("" : String).isEmpty = true := rfl
  refine ⟨fun b => ⟨rfl, ?_, ?_⟩, fun p => ⟨rfl, ?_, ?_⟩, fun s => ⟨rfl, ?_, ?_⟩⟩
  · simp [ConcreteComputerBuilder.build, ConcreteComputerBuilder.setRAM, hemp]
  · simp [ConcreteComputerBuilder.build, ConcreteComputerBuilder.setStorage, hemp]
  · simp [FluentComputerBuilder.build, FluentComputerBuilder.ram, optTruthy, hemp]
  · simp [FluentComputerBuilder.build, FluentComputerBuilder.storage, optTruthy, hemp]
  · simp [StepComputerBuilder.build, StepComputerBuilder.ram, hemp]
  · simp [StepComputerBuilder.build, StepComputerBuilder.storage, hemp]

end Patterns
